import Mathlib

/-!
Shallow embedding of `src/lib/prisma.ts` (umami's database-dialect-abstraction and
query-templating layer), and proofs about it.

Conventions:
- JS template literals become explicit `String` concatenation; a single quote inside a
  SQL fragment is written `\x27` and a literal brace `\x7b` / `\x7d`.
- `getDatabaseType()` (lib/db, a collaborator) is modelled as an explicit `Dialect`
  argument; the two supported engines are the only inhabitants.
- `moment.tz(timezone).format(\x27Z\x27)` (the timezone collaborator) is modelled as an
  explicit function argument `tzOffset : String → String`.
- JS objects used as parameter maps become `String → Option Value` with in-order updates
  (`setParam`), so a later spread entry overrides an earlier one, as in JS.
-/

namespace Umami

/-- The two supported database dialects (`POSTGRESQL` / `MYSQL` in `lib/db`). -/
inductive Dialect where
  | postgresql
  | mysql
  deriving DecidableEq, Repr

/-- The five supported bucket units accepted by `getDateSQL`. -/
inductive TimeUnit where
  | minute
  | hour
  | day
  | month
  | year
  deriving DecidableEq, Repr

/-- The string spelled for a unit when interpolated into SQL (`date_trunc(\x27unit\x27, ...)`). -/
def TimeUnit.toStr : TimeUnit → String
  | .minute => "minute"
  | .hour => "hour"
  | .day => "day"
  | .month => "month"
  | .year => "year"

/-- `MYSQL_DATE_FORMATS` from the source (lines 14-20). -/
def MYSQL_DATE_FORMATS : TimeUnit → String
  | .minute => "%Y-%m-%dT%H:%i:00"
  | .hour => "%Y-%m-%d %H:00:00"
  | .day => "%Y-%m-%d 00:00:00"
  | .month => "%Y-%m-01 00:00:00"
  | .year => "%Y-01-01 00:00:00"

/-- `POSTGRESQL_DATE_FORMATS` from the source (lines 22-28). -/
def POSTGRESQL_DATE_FORMATS : TimeUnit → String
  | .minute => "YYYY-MM-DD HH24:MI:00"
  | .hour => "YYYY-MM-DD HH24:00:00"
  | .day => "YYYY-MM-DD HH24:00:00"
  | .month => "YYYY-MM-01 HH24:00:00"
  | .year => "YYYY-01-01 HH24:00:00"

/-- `getAddIntervalQuery` (source lines 30-40). -/
def getAddIntervalQuery (db : Dialect) (field interval : String) : String :=
  match db with
  | .postgresql => field ++ " + interval \x27" ++ interval ++ "\x27"
  | .mysql => "DATE_ADD(" ++ field ++ ", interval " ++ interval ++ ")"

/-- `getDayDiffQuery` (source lines 42-52). -/
def getDayDiffQuery (db : Dialect) (field1 field2 : String) : String :=
  match db with
  | .postgresql => field1 ++ "::date - " ++ field2 ++ "::date"
  | .mysql => "DATEDIFF(" ++ field1 ++ ", " ++ field2 ++ ")"

/-- `getCastColumnQuery` (source lines 54-64). -/
def getCastColumnQuery (db : Dialect) (field type : String) : String :=
  match db with
  | .postgresql => field ++ "::" ++ type
  | .mysql => field

/-- `getDateSQL` (source lines 66-83). `tzOffset` models the timezone collaborator
`moment.tz(timezone).format(\x27Z\x27)` used on the MySQL branch. -/
def getDateSQL (db : Dialect) (tzOffset : String → String) (field : String) (unit : TimeUnit)
    (timezone : Option String) : String :=
  match db with
  | .postgresql =>
    match timezone with
    | some tz =>
      "to_char(date_trunc(\x27" ++ unit.toStr ++ "\x27, " ++ field ++ " at time zone \x27" ++
        tz ++ "\x27), \x27" ++ POSTGRESQL_DATE_FORMATS unit ++ "\x27)"
    | none =>
      "to_char(date_trunc(\x27" ++ unit.toStr ++ "\x27, " ++ field ++ "), \x27" ++
        POSTGRESQL_DATE_FORMATS unit ++ "\x27)"
  | .mysql =>
    match timezone with
    | some tz =>
      "date_format(convert_tz(" ++ field ++ ",\x27+00:00\x27,\x27" ++ tzOffset tz ++
        "\x27), \x27" ++ MYSQL_DATE_FORMATS unit ++ "\x27)"
    | none => "date_format(" ++ field ++ ", \x27" ++ MYSQL_DATE_FORMATS unit ++ "\x27)"

/-- `getDateWeeklySQL` (source lines 85-96). -/
def getDateWeeklySQL (db : Dialect) (tzOffset : String → String) (field timezone : String) :
    String :=
  match db with
  | .postgresql =>
    "concat(extract(dow from (" ++ field ++ " at time zone \x27" ++ timezone ++
      "\x27)), \x27:\x27, to_char((" ++ field ++ " at time zone \x27" ++ timezone ++
      "\x27), \x27HH24\x27))"
  | .mysql =>
    "date_format(convert_tz(" ++ field ++ ",\x27+00:00\x27,\x27" ++ tzOffset timezone ++
      "\x27), \x27%w:%H\x27)"

/-- `getTimestampSQL` (source lines 98-108). -/
def getTimestampSQL (db : Dialect) (field : String) : String :=
  match db with
  | .postgresql => "floor(extract(epoch from " ++ field ++ "))"
  | .mysql => "UNIX_TIMESTAMP(" ++ field ++ ")"

/-- `getTimestampDiffSQL` (source lines 110-120). -/
def getTimestampDiffSQL (db : Dialect) (field1 field2 : String) : String :=
  match db with
  | .postgresql => "floor(extract(epoch from (" ++ field2 ++ " - " ++ field1 ++ ")))"
  | .mysql => "timestampdiff(second, " ++ field1 ++ ", " ++ field2 ++ ")"

/-- `getSearchSQL` (source lines 122-127). -/
def getSearchSQL (db : Dialect) (column : String) : String :=
  let like := if db = .postgresql then "ilike" else "like"
  "and " ++ column ++ " " ++ like ++ " \x7b\x7bsearch\x7d\x7d"

/-! ## Filter compiler -/

/-- A JS scalar value carried in a parameter map. -/
inductive Value where
  | str : String → Value
  | num : Int → Value
  | date : Int → Value
  deriving DecidableEq, Repr

/-- JS string coercion of a value, as used by the template literal in `getFilterParams`. -/
def Value.coerceStr : Value → String
  | .str s => s
  | .num n => toString n
  | .date n => toString n

/-- Filter operators: the four members of `OPERATORS` handled by `mapFilter`, plus a
catch-all for any other member of the `OPERATORS` enum (`lib/constants`), whose concrete
string spelling is irrelevant here. -/
inductive Operator where
  | equals
  | notEquals
  | contains
  | doesNotContain
  | other : String → Operator
  deriving DecidableEq, Repr

/-- One structured filter as produced by `filtersToArray` (`lib/params`).

Modelled from the spec: `filtersToArray` itself is not among the sources; per the spec
(§3 FilterSpec) each filter is `\x7bname, column | absent, operator, value\x7d`, and the
compiler consumes the resulting list directly. -/
structure FilterSpec where
  name : String
  column : Option String
  operator : Operator
  value : Value
  deriving DecidableEq, Repr

/-- `mapFilter` (source lines 129-146). `type` is the optional third template argument
(defaulting to the empty string in the source). -/
def mapFilter (db : Dialect) (column : String) (operator : Operator) (name : String)
    (type : String) : String :=
  let like := if db = .postgresql then "ilike" else "like"
  let value := "\x7b\x7b" ++ name ++ (if type ≠ "" then "::" ++ type else "") ++ "\x7d\x7d"
  match operator with
  | .equals => column ++ " = " ++ value
  | .notEquals => column ++ " != " ++ value
  | .contains => column ++ " " ++ like ++ " " ++ value
  | .doesNotContain => column ++ " not " ++ like ++ " " ++ value
  | .other _ => ""

/-- `getFilterQuery` (source lines 148-164): fold the filter list, emitting an
`and <predicate>` line per filter with a present column, plus the self-referrer
exclusion line after a filter named `referrer`; join with newlines. -/
def getFilterQuery (db : Dialect) (filters : List FilterSpec) : String :=
  let query := filters.foldl (fun arr f =>
    match f.column with
    | none => arr
    | some col =>
      let arr := arr ++ ["and " ++ mapFilter db col f.operator f.name ""]
      if f.name = "referrer" then
        arr ++
          ["and (website_event.referrer_domain != \x7b\x7bwebsiteDomain\x7d\x7d or website_event.referrer_domain is null)"]
      else arr) []
  String.intercalate "\n" query

/-- The filter/date-range input of `parseFilters` (`QueryFilters` from `lib/types`:
the structured filters plus the `startDate` / `endDate` bounds, dates as epoch
milliseconds). -/
structure QueryFilters where
  startDate : Option Int
  endDate : Option Int
  filters : List FilterSpec
  deriving Repr

/-- `getDateQuery` (source lines 166-178). -/
def getDateQuery (f : QueryFilters) : String :=
  match f.startDate with
  | some _ =>
    match f.endDate with
    | some _ =>
      "and website_event.created_at between \x7b\x7bstartDate\x7d\x7d and \x7b\x7bendDate\x7d\x7d"
    | none => "and website_event.created_at >= \x7b\x7bstartDate\x7d\x7d"
  | none => ""

/-- A JS object used as a parameter map: total lookup returning `none` for an absent key. -/
def ParamMap : Type := String → Option Value

/-- In-order JS object update: `obj[k] = v` / a later spread entry overriding an earlier one. -/
def setParam (m : ParamMap) (k : String) (v : Option Value) : ParamMap :=
  fun s => if s = k then v else m s

/-- The empty JS object. -/
def emptyParams : ParamMap := fun _ => none

/-- `getFilterParams` (source lines 180-188): each filter contributes its value under its
name, with `contains` / `doesNotContain` values wrapped in `%` wildcard markers. -/
def getFilterParams (filters : List FilterSpec) : ParamMap :=
  filters.foldl (fun obj f =>
    let v :=
      match f.operator with
      | .contains => Value.str ("%" ++ f.value.coerceStr ++ "%")
      | .doesNotContain => Value.str ("%" ++ f.value.coerceStr ++ "%")
      | _ => f.value
    setParam obj f.name (some v)) emptyParams

/-- Modelled from the spec: `maxDate` lives in `lib/date`, which is not among the sources.
Per the spec (§4.3 step 4), the clamp is `max(requestedStart, resetAt)`, treating an
absent bound as the other's value. -/
def maxDate (a b : Option Int) : Option Int :=
  match a, b with
  | none, b => b
  | a, none => a
  | some x, some y => some (max x y)

/-- The entity-lookup collaborator's result (`fetchWebsite`): the site domain and the
optional reset timestamp. -/
structure Website where
  domain : String
  resetAt : Option Int
  deriving Repr

/-- `QueryOptions` (`lib/types`): `joinSession` forces the session join. -/
structure QueryOptions where
  joinSession : Bool
  deriving Repr

/-- The record returned by `parseFilters`. -/
structure ParsedFilters where
  joinSession : String
  filterQuery : String
  dateQuery : String
  params : ParamMap

/-- `parseFilters` (source lines 190-212). `website` stands for the awaited
`fetchWebsite(websiteId)` result; `sessionColumns` stands for `SESSION_COLUMNS`
(`lib/constants`, not among the sources), the reserved session-scoped column set the
filter keys are checked against. The `params` object spreads `getFilterParams(filters)`
first and then writes `websiteId`, `startDate`, `websiteDomain`, in that order. -/
def parseFilters (sessionColumns : List String) (db : Dialect) (website : Website)
    (websiteId : String) (filters : QueryFilters) (options : QueryOptions) : ParsedFilters :=
  let joinSession := options.joinSession || filters.filters.any fun f =>
    sessionColumns.contains f.name
  { joinSession :=
      if joinSession then "inner join session on website_event.session_id = session.session_id"
      else ""
    filterQuery := getFilterQuery db filters.filters
    dateQuery := getDateQuery filters
    params :=
      setParam
        (setParam
          (setParam (getFilterParams filters.filters) "websiteId" (some (Value.str websiteId)))
          "startDate" ((maxDate filters.startDate website.resetAt).map Value.date))
        "websiteDomain" (some (Value.str website.domain)) }

/-! ## Template binder (`rawQuery`)

The source rewrites `sql.replaceAll(/\x7b\x7b\s*(\w+)(::\w+)?\s*\x7d\x7d/g, ...)`,
pushing `data[name]` onto `params` at each match and emitting `?` (MySQL) or
`$<params.length><type ?? \x27\x27>` (PostgreSQL). We model the regex engine's
leftmost, non-overlapping scan directly on the character list. -/

/-- The regex word class `\w`: ASCII letters, digits and underscore. -/
def isWordChar (c : Char) : Bool :=
  (('a' ≤ c && c ≤ 'z') || ('A' ≤ c && c ≤ 'Z') || ('0' ≤ c && c ≤ '9') || c = '_')

/-- The regex whitespace class `\s` (restricted to the ASCII whitespace that can occur in
the templates of this code base). -/
def isSpaceChar (c : Char) : Bool :=
  (c = ' ' || c = '\t' || c = '\n' || c = '\r')

/-- The optional second capture `(::\w+)?`: on `::` followed by at least one word
character, capture `::<word>` (the capture keeps its leading colons, as group 2 of the
source regex does) and consume it; otherwise capture nothing and consume nothing. -/
def matchTypeCapture (cs : List Char) : Option String × List Char :=
  match cs with
  | ':' :: ':' :: r =>
    let tyCs := r.takeWhile isWordChar
    if tyCs.isEmpty then (none, cs)
    else (some (String.mk (':' :: ':' :: tyCs)), r.dropWhile isWordChar)
  | _ => (none, cs)

/-- The closing `\s*\x7d\x7d` of the placeholder pattern. -/
def matchClose (name : String) (ty : Option String) (cs : List Char) :
    Option (String × Option String × List Char) :=
  match cs.dropWhile isSpaceChar with
  | '}' :: '}' :: r => some (name, ty, r)
  | _ => none

/-- Try to match the placeholder pattern `\x7b\x7b\s*(\w+)(::\w+)?\s*\x7d\x7d` at the head
of the character list. On success, return the captured name, the optional second capture,
and the remaining characters. -/
def matchPlaceholder (cs : List Char) : Option (String × Option String × List Char) :=
  match cs with
  | '{' :: '{' :: rest =>
    let rest1 := rest.dropWhile isSpaceChar
    let nameCs := rest1.takeWhile isWordChar
    if nameCs.isEmpty then none
    else
      let tr := matchTypeCapture (rest1.dropWhile isWordChar)
      matchClose (String.mk nameCs) tr.1 tr.2
  | _ => none

theorem length_dropWhile_le (p : Char → Bool) (l : List Char) :
    (l.dropWhile p).length ≤ l.length := by
  induction l with
  | nil => simp [List.dropWhile]
  | cons c cs ih =>
    by_cases h : p c
    · simp [List.dropWhile, h]; omega
    · simp [List.dropWhile, h]

theorem matchTypeCapture_length (cs : List Char) :
    (matchTypeCapture cs).2.length ≤ cs.length := by
  unfold matchTypeCapture
  split
  · next r =>
    by_cases he : (r.takeWhile isWordChar).isEmpty
    · simp [he]
    · have := length_dropWhile_le isWordChar r
      simp [he]
      omega
  · simp

theorem matchClose_length {name : String} {ty : Option String} {cs : List Char}
    {r : String × Option String × List Char} (h : matchClose name ty cs = some r) :
    r.2.2.length + 2 ≤ cs.length := by
  unfold matchClose at h
  split at h
  · next r5 heq =>
    cases h
    have h1 := length_dropWhile_le isSpaceChar cs
    rw [heq] at h1
    simpa using h1
  · exact absurd h (by simp)

theorem matchPlaceholder_length {cs : List Char}
    {r : String × Option String × List Char} (h : matchPlaceholder cs = some r) :
    r.2.2.length < cs.length := by
  unfold matchPlaceholder at h
  split at h
  · next rest =>
    simp only at h
    split at h
    · exact absurd h (by simp)
    · have hc := matchClose_length h
      have h1 := matchTypeCapture_length (rest.dropWhile isSpaceChar |>.dropWhile isWordChar)
      have h2 := length_dropWhile_le isWordChar (rest.dropWhile isSpaceChar)
      have h3 := length_dropWhile_le isSpaceChar rest
      simp only [List.length_cons]
      omega
  · exact absurd h (by simp)

/-- The positional marker emitted for the `n`-th placeholder (1-based): `?` on MySQL,
`$<n>` with the forwarded type capture on PostgreSQL (`type ?? \x27\x27`). -/
def marker (db : Dialect) (n : Nat) (ty : Option String) : String :=
  match db with
  | .mysql => "?"
  | .postgresql => "$" ++ toString n ++ ty.getD ""

/-- The rewritten SQL text of `replaceAll`, fuelled (structural recursion on `fuel`; by
`matchPlaceholder_length` every successful match strictly shortens the input, so
`fuel = length` never runs out — see `rewriteQueryAux_fuel`): `n` counts the placeholders
already replaced (`params.length` before the current push). -/
def rewriteQueryAux (db : Dialect) : Nat → List Char → Nat → List Char
  | 0, _, _ => []
  | _ + 1, [], _ => []
  | fuel + 1, c :: cs, n =>
    match matchPlaceholder (c :: cs) with
    | some pl => (marker db (n + 1) pl.2.1).data ++ rewriteQueryAux db fuel pl.2.2 (n + 1)
    | none => c :: rewriteQueryAux db fuel cs n

/-- `replaceAll`'s rewritten text. -/
def rewriteQuery (db : Dialect) (cs : List Char) : List Char :=
  rewriteQueryAux db cs.length cs 0

/-- The `params` array built by `replaceAll`'s callback, fuelled as above: one
`data[name]` per placeholder occurrence, in scan order (`none` models the `undefined`
bound for an absent key). -/
def collectParamsAux (data : ParamMap) : Nat → List Char → List (Option Value)
  | 0, _ => []
  | _ + 1, [] => []
  | fuel + 1, c :: cs =>
    match matchPlaceholder (c :: cs) with
    | some pl => data pl.1 :: collectParamsAux data fuel pl.2.2
    | none => collectParamsAux data fuel cs

/-- The `params` array built by `replaceAll`'s callback. -/
def collectParams (data : ParamMap) (cs : List Char) : List (Option Value) :=
  collectParamsAux data cs.length cs

/-- The sequence of placeholder occurrences (name, optional type capture) found by the
leftmost non-overlapping scan, fuelled as above. -/
def placeholderOccurrencesAux : Nat → List Char → List (String × Option String)
  | 0, _ => []
  | _ + 1, [] => []
  | fuel + 1, c :: cs =>
    match matchPlaceholder (c :: cs) with
    | some pl => (pl.1, pl.2.1) :: placeholderOccurrencesAux fuel pl.2.2
    | none => placeholderOccurrencesAux fuel cs

/-- The sequence of placeholder occurrences of a template. -/
def placeholderOccurrences (cs : List Char) : List (String × Option String) :=
  placeholderOccurrencesAux cs.length cs

theorem collectParamsAux_fuel (data : ParamMap) :
    ∀ (f1 f2 : Nat) (cs : List Char), cs.length ≤ f1 → cs.length ≤ f2 →
      collectParamsAux data f1 cs = collectParamsAux data f2 cs := by
  intro f1
  induction f1 with
  | zero =>
    intro f2 cs h1 _
    have : cs = [] := by cases cs <;> simp_all
    subst this
    cases f2 <;> rfl
  | succ f1 ih =>
    intro f2 cs h1 h2
    match cs with
    | [] => cases f2 <;> rfl
    | c :: tl =>
      match f2, h2 with
      | g + 1, h2 =>
        simp only [collectParamsAux]
        cases hm : matchPlaceholder (c :: tl) with
        | some pl =>
          have hlt := matchPlaceholder_length hm
          simp only [List.length_cons] at h1 h2 hlt
          dsimp only
          rw [ih g pl.2.2 (by omega) (by omega)]
        | none =>
          simp only [List.length_cons] at h1 h2
          dsimp only
          rw [ih g tl (by omega) (by omega)]

theorem rewriteQueryAux_fuel (db : Dialect) :
    ∀ (f1 f2 : Nat) (cs : List Char) (n : Nat), cs.length ≤ f1 → cs.length ≤ f2 →
      rewriteQueryAux db f1 cs n = rewriteQueryAux db f2 cs n := by
  intro f1
  induction f1 with
  | zero =>
    intro f2 cs n h1 _
    have : cs = [] := by cases cs <;> simp_all
    subst this
    cases f2 <;> rfl
  | succ f1 ih =>
    intro f2 cs n h1 h2
    match cs with
    | [] => cases f2 <;> rfl
    | c :: tl =>
      match f2, h2 with
      | g + 1, h2 =>
        simp only [rewriteQueryAux]
        cases hm : matchPlaceholder (c :: tl) with
        | some pl =>
          have hlt := matchPlaceholder_length hm
          simp only [List.length_cons] at h1 h2 hlt
          dsimp only
          rw [ih g pl.2.2 (n + 1) (by omega) (by omega)]
        | none =>
          simp only [List.length_cons] at h1 h2
          dsimp only
          rw [ih g tl n (by omega) (by omega)]

theorem collectParamsAux_eq_occurrences (data : ParamMap) :
    ∀ (fuel : Nat) (cs : List Char),
      collectParamsAux data fuel cs =
        (placeholderOccurrencesAux fuel cs).map (fun o => data o.1) := by
  intro fuel
  induction fuel with
  | zero => intro cs; rfl
  | succ fuel ih =>
    intro cs
    match cs with
    | [] => rfl
    | c :: tl =>
      simp only [collectParamsAux, placeholderOccurrencesAux]
      cases hm : matchPlaceholder (c :: tl) with
      | some pl => simp [ih]
      | none => simp [ih]

/-- `replaceAll` pushes `data[name]` for every placeholder occurrence, in scan order. -/
theorem collectParams_eq_occurrences (data : ParamMap) (cs : List Char) :
    collectParams data cs = (placeholderOccurrences cs).map (fun o => data o.1) :=
  collectParamsAux_eq_occurrences data cs.length cs

/-- The bound statement handed to the execution collaborator (`prisma.rawQuery(query, params)`). -/
structure BoundQuery where
  query : String
  params : List (Option Value)
  deriving DecidableEq, Repr

/-- `rawQuery` (source lines 214-238), restricted to the two supported dialects (for any
other database type the source rejects before rewriting): the rewritten text plus the
positional parameter list. -/
def rawQuery (db : Dialect) (sql : String) (data : ParamMap) : BoundQuery :=
  { query := String.mk (rewriteQuery db sql.data)
    params := collectParams data sql.data }

/-! ## Pagination wrapper -/

/-- Modelled from the spec: `DEFAULT_PAGE_SIZE` is imported from `lib/constants`, which is
not among the sources. The spec's pagination contract ("a non-positive/absent page size
means no limit, return everything"; "`pageSize=0` or absent yields no limit/offset
clause") fixes the fallback used by `+pageSize || DEFAULT_PAGE_SIZE` at `0`. -/
def DEFAULT_PAGE_SIZE : Int := 0

/-- `PageParams` (`lib/types`): optional fields model JS `undefined`; numeric fields are
taken as integers (the `+` coercions of the source are identities on them). -/
structure PageParams where
  page : Option Int
  pageSize : Option Int
  orderBy : Option String
  sortDescending : Option Bool
  deriving Repr

/-- The shared derivation `const size = +pageSize || DEFAULT_PAGE_SIZE`: an absent page
size coerces to `NaN` and `0` is falsy, so both fall back to the default; any other
number (negative included) is kept. -/
def PageParams.size (pp : PageParams) : Int :=
  match pp.pageSize with
  | none => DEFAULT_PAGE_SIZE
  | some n => if n = 0 then DEFAULT_PAGE_SIZE else n

/-- The destructuring default `page = 1`. -/
def PageParams.pageNum (pp : PageParams) : Int := pp.page.getD 1

/-- The destructuring default `sortDescending = false`. -/
def PageParams.desc (pp : PageParams) : Bool := pp.sortDescending.getD false

/-- The paged envelope `\x7bdata, count, page, pageSize, orderBy\x7d`. -/
structure PagedResult (α : Type) where
  data : List α
  count : Nat
  page : Int
  pageSize : Int
  orderBy : Option String
  deriving Repr

/-- `pagedQuery` (source lines 240-261). `rows` stands for the rows matching `criteria`
(in collaborator order, ordering being the collaborator's job): `findMany` receives
`take`/`skip` only when `size > 0`, and the independent `count` sees only
`criteria.where`, never the pagination. -/
def pagedQuery {α : Type} (rows : List α) (pp : PageParams) : PagedResult α :=
  let size := pp.size
  let data :=
    if size > 0 then ((rows.drop (size * (pp.pageNum - 1)).toNat).take size.toNat)
    else rows
  { data := data
    count := rows.length
    page := pp.pageNum
    pageSize := size
    orderBy := pp.orderBy }

/-- The two SQL statements issued by `pagedRawQuery`, plus its envelope metadata. -/
structure PagedRawResult where
  countSql : String
  dataSql : String
  page : Int
  pageSize : Int
  orderBy : Option String
  deriving Repr

/-- `pagedRawQuery` (source lines 263-287): the count query wraps the caller's SQL as a
subquery; the data query appends `order by` (when `orderBy` is truthy, i.e. present and
non-empty) and `limit ... offset ...` (when `+size > 0`), joined by newlines. -/
def pagedRawQuery (query : String) (pp : PageParams) : PagedRawResult :=
  let size := pp.size
  let offset := size * (pp.pageNum - 1)
  let direction := if pp.desc then "desc" else "asc"
  let stmts : List String :=
    (match pp.orderBy with
      | some ob => if ob = "" then [] else ["order by " ++ ob ++ " " ++ direction]
      | none => []) ++
    (if size > 0 then ["limit " ++ toString size ++ " offset " ++ toString offset] else [])
  { countSql := "select count(*) as num from (" ++ query ++ ") t"
    dataSql := query ++ String.intercalate "\n" stmts
    page := pp.pageNum
    pageSize := size
    orderBy := pp.orderBy }

/-! ## Rendering semantics of the date-bucket fragments

To compare what the two dialects' `truncateDate` fragments actually print, we give the
standard semantics of the database functions the fragments invoke: MySQL `date_format`
applied to the raw timestamp, and PostgreSQL `to_char` applied to the `date_trunc`-ed
timestamp, each interpreting exactly the format strings of the source
(`MYSQL_DATE_FORMATS` / `POSTGRESQL_DATE_FORMATS`), in UTC (no timezone argument). -/

/-- A wall-clock timestamp, component-wise. -/
structure Timestamp where
  year : Nat
  month : Nat
  day : Nat
  hour : Nat
  minute : Nat
  second : Nat
  deriving DecidableEq, Repr

/-- Two-digit zero-padded decimal rendering. -/
def pad2 (n : Nat) : List Char :=
  (if n < 10 then "0" ++ toString n else toString n).data

/-- Four-digit zero-padded decimal rendering. -/
def pad4 (n : Nat) : List Char :=
  (if n < 10 then "000" ++ toString n
   else if n < 100 then "00" ++ toString n
   else if n < 1000 then "0" ++ toString n
   else toString n).data

/-- MySQL `date_format` over the specifiers occurring in `MYSQL_DATE_FORMATS`
(`%Y %m %d %H %i %s`); any other character after `%` prints itself, other characters are
literal. -/
def mysqlDateFormat (t : Timestamp) : List Char → List Char
  | '%' :: c :: rest =>
    (match c with
      | 'Y' => pad4 t.year
      | 'm' => pad2 t.month
      | 'd' => pad2 t.day
      | 'H' => pad2 t.hour
      | 'i' => pad2 t.minute
      | 's' => pad2 t.second
      | c => [c]) ++ mysqlDateFormat t rest
  | c :: rest => c :: mysqlDateFormat t rest
  | [] => []

/-- PostgreSQL `to_char` over the template patterns occurring in
`POSTGRESQL_DATE_FORMATS` (`YYYY MM DD HH24 MI SS`); other characters are literal. -/
def pgToChar (t : Timestamp) : List Char → List Char
  | 'H' :: 'H' :: '2' :: '4' :: rest => pad2 t.hour ++ pgToChar t rest
  | 'Y' :: 'Y' :: 'Y' :: 'Y' :: rest => pad4 t.year ++ pgToChar t rest
  | 'M' :: 'M' :: rest => pad2 t.month ++ pgToChar t rest
  | 'M' :: 'I' :: rest => pad2 t.minute ++ pgToChar t rest
  | 'D' :: 'D' :: rest => pad2 t.day ++ pgToChar t rest
  | 'S' :: 'S' :: rest => pad2 t.second ++ pgToChar t rest
  | c :: rest => c :: pgToChar t rest
  | [] => []

/-- PostgreSQL `date_trunc`: zero (or reset to 1) every component finer than the unit. -/
def dateTrunc (u : TimeUnit) (t : Timestamp) : Timestamp :=
  match u with
  | .minute => { t with second := 0 }
  | .hour => { t with minute := 0, second := 0 }
  | .day => { t with hour := 0, minute := 0, second := 0 }
  | .month => { t with day := 1, hour := 0, minute := 0, second := 0 }
  | .year => { t with month := 1, day := 1, hour := 0, minute := 0, second := 0 }

/-- What the MySQL fragment `date_format(field, \x27<fmt>\x27)` prints for a timestamp. -/
def mysqlRender (u : TimeUnit) (t : Timestamp) : List Char :=
  mysqlDateFormat t (MYSQL_DATE_FORMATS u).data

/-- What the PostgreSQL fragment `to_char(date_trunc(\x27<unit>\x27, field), \x27<fmt>\x27)`
prints for a timestamp. -/
def pgRender (u : TimeUnit) (t : Timestamp) : List Char :=
  pgToChar (dateTrunc u t) (POSTGRESQL_DATE_FORMATS u).data

/-- The rendering of the `getDateSQL` fragment of a dialect, applied to a timestamp. -/
def dialectRender (db : Dialect) (u : TimeUnit) (t : Timestamp) : List Char :=
  match db with
  | .postgresql => pgRender u t
  | .mysql => mysqlRender u t

/-! ## Claim theorems -/

/-- C1: with `pageSize` 0 or absent, neither `pagedQuery` nor `pagedRawQuery` applies any
take/skip (limit/offset) restriction — the structured path hands the full row set back
and the raw path appends no `limit ... offset ...` clause — while the count still
reflects the unfiltered total (the full row count / the bare count subquery). -/
theorem paged_no_limit_when_pageSize_absent_or_zero
    {α : Type} (rows : List α) (query : String) (pp : PageParams)
    (h : pp.pageSize = none ∨ pp.pageSize = some 0) :
    (pagedQuery rows pp).data = rows ∧
    (pagedQuery rows pp).count = rows.length ∧
    (pagedRawQuery query pp).dataSql =
      query ++ String.intercalate "\n"
        (match pp.orderBy with
          | some ob =>
            if ob = "" then [] else ["order by " ++ ob ++ " " ++ (if pp.desc then "desc" else "asc")]
          | none => []) ∧
    (pagedRawQuery query pp).countSql = "select count(*) as num from (" ++ query ++ ") t" := by
  have hs : pp.size = 0 := by
    rcases h with h | h <;> simp [PageParams.size, h, DEFAULT_PAGE_SIZE]
  refine ⟨?_, ?_, ?_, ?_⟩
  · simp [pagedQuery, hs]
  · simp [pagedQuery]
  · simp [pagedRawQuery, hs]
  · simp [pagedRawQuery]

/-- C1 witness: a concrete call with `pageSize = 0` returns everything. -/
theorem paged_no_limit_when_pageSize_absent_or_zero_witness :
    (pagedQuery [10, 20, 30] (PageParams.mk (some 2) (some 0) none none)).data =
        [10, 20, 30] ∧
    (pagedQuery [10, 20, 30] (PageParams.mk (some 2) (some 0) none none)).count = 3 ∧
    (pagedRawQuery "select 1" (PageParams.mk (some 2) (some 0) none none)).dataSql =
        "select 1" ∧
    (pagedRawQuery "select 1" (PageParams.mk (some 2) (some 0) none none)).countSql =
        "select count(*) as num from (select 1) t" := by
  obtain ⟨h1, h2, h3, h4⟩ :=
    paged_no_limit_when_pageSize_absent_or_zero (α := Nat) [10, 20, 30] "select 1"
      (PageParams.mk (some 2) (some 0) none none) (Or.inr rfl)
  exact ⟨h1, h2, by rw [h3]; decide, by rw [h4]; decide⟩

/-- C7: both pagination entry points echo the caller's `page` and `pageSize` (as numbers)
in the returned envelope, whatever the values (pagination applied or not), and echo
`orderBy` as given. -/
theorem paged_envelope_echoes_page_params
    {α : Type} (rows : List α) (query : String) (pp : PageParams) (g p : Int)
    (hg : pp.page = some g) (hp : pp.pageSize = some p) :
    (pagedQuery rows pp).page = g ∧ (pagedQuery rows pp).pageSize = p ∧
    (pagedRawQuery query pp).page = g ∧ (pagedRawQuery query pp).pageSize = p ∧
    (pagedQuery rows pp).orderBy = pp.orderBy ∧
    (pagedRawQuery query pp).orderBy = pp.orderBy := by
  have hsize : pp.size = p := by
    by_cases hz : p = 0 <;> simp [PageParams.size, hp, hz, DEFAULT_PAGE_SIZE]
  refine ⟨?_, ?_, ?_, ?_, ?_, ?_⟩ <;>
    simp [pagedQuery, pagedRawQuery, PageParams.pageNum, hg, hsize]

/-- C7 witness: a concrete call echoes `page = 3`, `pageSize = 10` and the given
`orderBy`. -/
theorem paged_envelope_echoes_page_params_witness :
    (pagedQuery [0, 1] (PageParams.mk (some 3) (some 10) (some "views") (some true))).page
        = 3 ∧
    (pagedQuery [0, 1]
        (PageParams.mk (some 3) (some 10) (some "views") (some true))).pageSize = 10 ∧
    (pagedRawQuery "select 1"
        (PageParams.mk (some 3) (some 10) (some "views") (some true))).page = 3 ∧
    (pagedRawQuery "select 1"
        (PageParams.mk (some 3) (some 10) (some "views") (some true))).pageSize = 10 ∧
    (pagedQuery [0, 1]
        (PageParams.mk (some 3) (some 10) (some "views") (some true))).orderBy =
      some "views" ∧
    (pagedRawQuery "select 1"
        (PageParams.mk (some 3) (some 10) (some "views") (some true))).orderBy =
      some "views" :=
  paged_envelope_echoes_page_params (α := Nat) [0, 1] "select 1"
    (PageParams.mk (some 3) (some 10) (some "views") (some true)) 3 10 rfl rfl

/-- C8: every SQL fragment generator is a pure function of its arguments and the dialect:
repeated invocation with identical inputs under an unchanged dialect configuration
returns identical output. -/
theorem fragment_generators_deterministic :
    (∀ (db : Dialect) (f i : String), getAddIntervalQuery db f i = getAddIntervalQuery db f i) ∧
    (∀ (db : Dialect) (f1 f2 : String), getDayDiffQuery db f1 f2 = getDayDiffQuery db f1 f2) ∧
    (∀ (db : Dialect) (f ty : String), getCastColumnQuery db f ty = getCastColumnQuery db f ty) ∧
    (∀ (db : Dialect) (tz : String → String) (f : String) (u : TimeUnit) (z : Option String),
      getDateSQL db tz f u z = getDateSQL db tz f u z) ∧
    (∀ (db : Dialect) (tz : String → String) (f z : String),
      getDateWeeklySQL db tz f z = getDateWeeklySQL db tz f z) ∧
    (∀ (db : Dialect) (f : String), getTimestampSQL db f = getTimestampSQL db f) ∧
    (∀ (db : Dialect) (f1 f2 : String),
      getTimestampDiffSQL db f1 f2 = getTimestampDiffSQL db f1 f2) ∧
    (∀ (db : Dialect) (c : String), getSearchSQL db c = getSearchSQL db c) :=
  ⟨fun _ _ _ => rfl, fun _ _ _ => rfl, fun _ _ _ => rfl, fun _ _ _ _ _ => rfl,
    fun _ _ _ _ => rfl, fun _ _ => rfl, fun _ _ _ => rfl, fun _ _ => rfl⟩

/-- C10: a filter with a present column and an operator outside
equals/notEquals/contains/doesNotContain makes `mapFilter` return the empty string, yet
`getFilterQuery` still emits the line `and ` (with trailing space) for it — a malformed
WHERE fragment, not a skip and not an error. -/
theorem unknown_operator_emits_bare_and (db : Dialect) (name col op : String) (v : Value)
    (hname : name ≠ "referrer") :
    mapFilter db col (.other op) name "" = "" ∧
    getFilterQuery db [⟨name, some col, .other op, v⟩] = "and " := by
  refine ⟨rfl, ?_⟩
  simp [getFilterQuery, mapFilter, hname]
  decide

/-- C10 witness: a concrete `gt`-operator filter compiles to the bare `and ` line. -/
theorem unknown_operator_emits_bare_and_witness :
    mapFilter .postgresql "session.os" (.other "gt") "os" "" = "" ∧
    getFilterQuery .postgresql [⟨"os", some "session.os", .other "gt", .str "x"⟩] =
      "and " :=
  unknown_operator_emits_bare_and .postgresql "os" "session.os" "gt" (.str "x")
    (by decide)

theorem pad2_zero : pad2 0 = ['0', '0'] := by decide

/-- C2 counterexample: for the minute unit the two dialects do NOT denote the same
textual shape — the MySQL format (`%Y-%m-%dT%H:%i:00`) separates date and time with `T`,
the PostgreSQL format (`YYYY-MM-DD HH24:MI:00`) with a space — so the same timestamp
renders to different strings on the two dialects, and only the MySQL one matches the
claimed `YYYY-MM-DDTHH:MM:00` shape. -/
theorem truncateDate_minute_formats_differ_across_dialects :
    dialectRender .mysql .minute (Timestamp.mk 2024 5 6 7 8 9) ≠
      dialectRender .postgresql .minute (Timestamp.mk 2024 5 6 7 8 9) ∧
    String.mk (dialectRender .mysql .minute (Timestamp.mk 2024 5 6 7 8 9)) =
      "2024-05-06T07:08:00" ∧
    String.mk (dialectRender .postgresql .minute (Timestamp.mk 2024 5 6 7 8 9)) =
      "2024-05-06 07:08:00" := by
  refine ⟨by decide, by decide, by decide⟩

/-- C2 amended: for the hour, day, month and year units the two dialects render every
timestamp to identical strings (the PostgreSQL `date_trunc` zeroes exactly the components
the MySQL format prints as literal zeros); for the minute unit both dialects render the
bucket with seconds zeroed, but MySQL writes a `T` between date and time where PostgreSQL
writes a space; and within a single dialect any two timestamps in the same bucket render
to identical strings. -/
theorem truncateDate_format_agreement :
    (∀ t : Timestamp,
      dialectRender .mysql .hour t = dialectRender .postgresql .hour t ∧
      dialectRender .mysql .day t = dialectRender .postgresql .day t ∧
      dialectRender .mysql .month t = dialectRender .postgresql .month t ∧
      dialectRender .mysql .year t = dialectRender .postgresql .year t) ∧
    (∀ t : Timestamp,
      dialectRender .mysql .minute t =
        pad4 t.year ++ '-' :: pad2 t.month ++ '-' :: pad2 t.day ++ 'T' ::
          pad2 t.hour ++ ':' :: pad2 t.minute ++ [':', '0', '0'] ∧
      dialectRender .postgresql .minute t =
        pad4 t.year ++ '-' :: pad2 t.month ++ '-' :: pad2 t.day ++ ' ' ::
          pad2 t.hour ++ ':' :: pad2 t.minute ++ [':', '0', '0']) ∧
    (∀ (db : Dialect) (u : TimeUnit) (t t' : Timestamp),
      dateTrunc u t = dateTrunc u t' → dialectRender db u t = dialectRender db u t') := by
  refine ⟨?_, ?_, ?_⟩
  · intro t
    refine ⟨?_, ?_, ?_, ?_⟩ <;>
      simp [dialectRender, mysqlRender, pgRender, dateTrunc, MYSQL_DATE_FORMATS,
        POSTGRESQL_DATE_FORMATS, mysqlDateFormat, pgToChar, pad2_zero]
  · intro t
    constructor <;>
      simp [dialectRender, mysqlRender, pgRender, dateTrunc, MYSQL_DATE_FORMATS,
        POSTGRESQL_DATE_FORMATS, mysqlDateFormat, pgToChar]
  · intro db u t t' h
    cases db
    · unfold dialectRender pgRender
      rw [h]
    · cases u <;>
        · unfold dialectRender
          simp only [dateTrunc, Timestamp.mk.injEq] at h
          simp [mysqlRender, MYSQL_DATE_FORMATS, mysqlDateFormat, h]

/-- C2 amended witness: two concrete timestamps 21 seconds apart in the same minute
bucket render identically on MySQL. -/
theorem truncateDate_format_agreement_witness :
    dialectRender .mysql .minute (Timestamp.mk 2024 5 6 7 8 9) =
      dialectRender .mysql .minute (Timestamp.mk 2024 5 6 7 8 30) :=
  truncateDate_format_agreement.2.2 .mysql .minute (Timestamp.mk 2024 5 6 7 8 9)
    (Timestamp.mk 2024 5 6 7 8 30) (by decide)

/-- The parameter map of the spec's binding example: `\x7bid: 5, name: "a"\x7d`. -/
def exampleParams : ParamMap :=
  fun s => if s = "id" then some (Value.num 5) else if s = "name" then some (Value.str "a") else none

/-- C3: `rawQuery` rewrites every placeholder occurrence into `?` on MySQL and into
`$<n>` (1-based position, type hint appended) on PostgreSQL, and appends `data[name]` to
the parameter list per occurrence in scan order — duplicates produce duplicate positional
parameters, and the type hint is forwarded only on PostgreSQL. The first conjunct is the
general characterization of the emitted parameter list; the rest instantiate the spec's
binding example (and a duplicate-occurrence template) on both dialects. -/
theorem rawQuery_placeholder_binding :
    (∀ (db : Dialect) (sql : String) (data : ParamMap),
      (rawQuery db sql data).params =
        (placeholderOccurrences sql.data).map (fun o => data o.1)) ∧
    rawQuery .mysql
        "select * from t where id = \x7b\x7bid\x7d\x7d and name = \x7b\x7bname::text\x7d\x7d"
        exampleParams =
      BoundQuery.mk "select * from t where id = ? and name = ?"
        [some (Value.num 5), some (Value.str "a")] ∧
    rawQuery .postgresql
        "select * from t where id = \x7b\x7bid\x7d\x7d and name = \x7b\x7bname::text\x7d\x7d"
        exampleParams =
      BoundQuery.mk "select * from t where id = $1 and name = $2::text"
        [some (Value.num 5), some (Value.str "a")] ∧
    rawQuery .postgresql "select \x7b\x7bid\x7d\x7d + \x7b\x7b id \x7d\x7d" exampleParams =
      BoundQuery.mk "select $1 + $2" [some (Value.num 5), some (Value.num 5)] ∧
    rawQuery .mysql "select \x7b\x7bid\x7d\x7d + \x7b\x7b id \x7d\x7d" exampleParams =
      BoundQuery.mk "select ? + ?" [some (Value.num 5), some (Value.num 5)] :=
  ⟨fun db sql data => collectParams_eq_occurrences data sql.data,
    by decide, by decide, by decide, by decide⟩

/-- C6: a placeholder whose name has no entry in the parameter map does not make
`rawQuery` fail — the scan is total, the occurrence is still rewritten into its
positional marker, and the `undefined`-equivalent value (`none`) is bound at that slot. -/
theorem rawQuery_missing_param_binds_undefined
    (db : Dialect) (sql : String) (data : ParamMap) (name : String) (ty : Option String)
    (hocc : (name, ty) ∈ placeholderOccurrences sql.data) (hmiss : data name = none) :
    none ∈ (rawQuery db sql data).params ∧
    rawQuery .postgresql "select \x7b\x7bmissing\x7d\x7d" emptyParams =
      BoundQuery.mk "select $1" [none] ∧
    rawQuery .mysql "select \x7b\x7bmissing\x7d\x7d" emptyParams =
      BoundQuery.mk "select ?" [none] := by
  refine ⟨?_, by decide, by decide⟩
  have hp : (rawQuery db sql data).params =
      (placeholderOccurrences sql.data).map (fun o => data o.1) :=
    collectParams_eq_occurrences data sql.data
  rw [hp]
  exact List.mem_map.mpr ⟨(name, ty), hocc, hmiss⟩

/-- C6 witness: a concrete template with an unbound placeholder binds `none` and the
query is still rewritten. -/
theorem rawQuery_missing_param_binds_undefined_witness :
    none ∈ (rawQuery .mysql "select \x7b\x7bmissing\x7d\x7d" emptyParams).params ∧
    rawQuery .postgresql "select \x7b\x7bmissing\x7d\x7d" emptyParams =
      BoundQuery.mk "select $1" [none] ∧
    rawQuery .mysql "select \x7b\x7bmissing\x7d\x7d" emptyParams =
      BoundQuery.mk "select ?" [none] :=
  rawQuery_missing_param_binds_undefined .mysql "select \x7b\x7bmissing\x7d\x7d"
    emptyParams "missing" none (by decide) rfl

/-- C4: the `startDate` entry of the map returned by `parseFilters` is exactly
`maxDate(requested startDate, website resetAt)` — the maximum of the two when both are
present (so an earlier request is replaced by `resetAt` and a later one is preserved),
and the other's value when one is absent — and the map always carries `websiteId` and
`websiteDomain`. -/
theorem parseFilters_startDate_clamp
    (sessionColumns : List String) (db : Dialect) (website : Website) (websiteId : String)
    (filters : QueryFilters) (options : QueryOptions) :
    (parseFilters sessionColumns db website websiteId filters options).params "startDate" =
      (maxDate filters.startDate website.resetAt).map Value.date ∧
    (parseFilters sessionColumns db website websiteId filters options).params "websiteId" =
      some (Value.str websiteId) ∧
    (parseFilters sessionColumns db website websiteId filters options).params
        "websiteDomain" = some (Value.str website.domain) ∧
    (∀ s r : Int, maxDate (some s) (some r) = some (max s r)) ∧
    (∀ r : Option Int, maxDate none r = r) ∧
    (∀ s : Option Int, maxDate s none = s) := by
  refine ⟨?_, ?_, ?_, fun s r => rfl, fun r => by cases r <;> rfl,
      fun s => by cases s <;> rfl⟩ <;>
    simp [parseFilters, setParam]

/-- C9: the computed entries `websiteId`, `startDate`, `websiteDomain` are written into
the parameter map after the filter-derived entries, so caller-supplied filters whose
names collide with the reserved keys (here one colliding filter per reserved key appended
to an arbitrary filter list) cannot override them. -/
theorem parseFilters_reserved_params_not_overridable
    (sessionColumns : List String) (db : Dialect) (website : Website) (websiteId : String)
    (startD endD : Option Int) (fs : List FilterSpec) (v1 v2 v3 : Value)
    (options : QueryOptions) :
    let collide : List FilterSpec :=
      [FilterSpec.mk "websiteId" none .equals v1, FilterSpec.mk "startDate" none .equals v2,
        FilterSpec.mk "websiteDomain" none .equals v3]
    let qf : QueryFilters := QueryFilters.mk startD endD (fs ++ collide)
    (parseFilters sessionColumns db website websiteId qf options).params "websiteId" =
        some (Value.str websiteId) ∧
      (parseFilters sessionColumns db website websiteId qf options).params "startDate" =
        (maxDate startD website.resetAt).map Value.date ∧
      (parseFilters sessionColumns db website websiteId qf options).params
          "websiteDomain" = some (Value.str website.domain) := by
  refine ⟨?_, ?_, ?_⟩ <;> simp [parseFilters, setParam]

theorem intercalate_pair (s a b : String) : String.intercalate s [a, b] = a ++ s ++ b := rfl

/-- C5: a `referrer` filter with a present column and the `contains` operator compiles to
exactly two predicates — the case-insensitive contains match and the self-referrer
exclusion (referrer domain differs from the site's own domain or is null) — and binds the
parameter `referrer` to the value wrapped in `%` wildcard markers. -/
theorem referrer_contains_filter_compilation (db : Dialect) (col : String) (v : Value) :
    getFilterQuery db [FilterSpec.mk "referrer" (some col) .contains v] =
      ("and " ++
          (col ++ " " ++ (if db = .postgresql then "ilike" else "like") ++
            " \x7b\x7breferrer\x7d\x7d")) ++
        "\n" ++
        "and (website_event.referrer_domain != \x7b\x7bwebsiteDomain\x7d\x7d or website_event.referrer_domain is null)" ∧
    getFilterParams [FilterSpec.mk "referrer" (some col) .contains v] "referrer" =
      some (Value.str ("%" ++ v.coerceStr ++ "%")) := by
  constructor
  · cases db <;>
      simp [getFilterQuery, mapFilter, intercalate_pair, String.append_assoc]
  · simp [getFilterParams, setParam, emptyParams]

end Umami
